import Mathlib

/-!
Verification of the hb-streamlit dashboard core (`src/streamlit_app.py`).

The embedding models:
* JSON values returned by the API (`Json`),
* the pandas DataFrame construction used by `df_safe` (`Table`, `dfOfList`),
* the normalizer `df_safe`,
* the field resolvers `pick` and `status_col`,
* the running-value classifier and running count (`isRunningValue`, `bots_running`),
* the metric formatter `kfmt`,
* the endpoint probe loops (`probeLoop`, `probeEndpoint`),
* the per-cycle render pipeline (`runDashboard`).

Machine integers do not occur; JSON numbers are modelled as `Int` and the
formatter's numeric domain as `ℚ` (the inputs exercised by the claims are
exact in both the model and in Python floats).
-/

namespace HB

/-- A JSON value, as produced by `requests.Response.json()`. -/
inductive Json where
  | null : Json
  | bool (b : Bool) : Json
  | num (n : Int) : Json
  | str (s : String) : Json
  | arr (xs : List Json) : Json
  | obj (kvs : List (String × Json)) : Json

/-- A pandas DataFrame as used by the script: ordered column labels plus a
list of rows, each row an association list from column label to cell value
(a missing key is a NaN cell). -/
structure Table where
  cols : List String
  rows : List (List (String × Json))

/-- The empty DataFrame `pd.DataFrame()`: zero rows, zero columns. -/
def emptyTable : Table := ⟨[], []⟩

/-- Emptiness test `df.empty` in pandas: true when the frame has no rows or no columns. -/
def Table.isEmpty (t : Table) : Bool := t.rows.isEmpty || t.cols.isEmpty

/-- The row that `pd.DataFrame(list)` builds for one list element on the
homogeneous paths (all-dict, all-list, or all-scalar lists, which are the
ones the theorems below quantify over): a dict element contributes its
key/value pairs, a list element its positionally labelled items, and a
scalar element lands in the single column `0`.  On dict-first
heterogeneous lists the real constructor raises instead; that failure
path is modelled separately by `pdKeysScanRaises` below. -/
def rowOf : Json → List (String × Json)
  | .obj kvs => kvs
  | .arr ys => ys.enum.map (fun p => (toString p.1, p.2))
  | v => [("0", v)]

/-- Accumulate the union of row keys in first-seen order (pandas column
order for a frame built from a list of records). -/
def addCols (acc : List String) (row : List (String × Json)) : List String :=
  row.foldl (fun cs kv => if kv.1 ∈ cs then cs else cs ++ [kv.1]) acc

/-- Frame construction `pd.DataFrame(xs)` for a list `xs` on its
non-raising paths: one row per element, columns the first-seen union of
the rows' keys (the spec's Table data model); whether the real
constructor instead raises on `xs` is captured by `pdKeysScanRaises`. -/
def dfOfList (xs : List Json) : Table :=
  let rows := xs.map rowOf
  ⟨rows.foldl addCols [], rows⟩

/-- First value bound to key `k` in a JSON object (`obj[k]` / `k in obj`). -/
def lookupJ (kvs : List (String × Json)) (k : String) : Option Json :=
  (kvs.find? (fun kv => kv.1 = k)).map Prod.snd

/-- Filter `isinstance(obj[key], list)` on a lookup result. -/
def getArr : Option Json → Option (List Json)
  | some (.arr xs) => some xs
  | _ => none

/-- The envelope scan of `df_safe`:
`for key in ("data", "result", "items"): if key in obj and
isinstance(obj[key], list): return ...` — the first of the three keys, in
that order, whose value is a list. -/
def envelope (kvs : List (String × Json)) : Option (List Json) :=
  match getArr (lookupJ kvs "data") with
  | some xs => some xs
  | none =>
    match getArr (lookupJ kvs "result") with
    | some xs => some xs
    | none => getArr (lookupJ kvs "items")

/-- Normalizer `df_safe(obj)` from `streamlit_app.py`: `None` → empty frame; a dict →
the enveloped list if one of `data`/`result`/`items` holds a list, else the
one-row frame `pd.DataFrame([obj])`; a list → `pd.DataFrame(list)`; any
other scalar → empty frame. -/
def df_safe : Json → Table
  | .null => emptyTable
  | .obj kvs =>
    match envelope kvs with
    | some xs => dfOfList xs
    | none => dfOfList [.obj kvs]
  | .arr xs => dfOfList xs
  | _ => emptyTable

/-- Whether a JSON value is an object (`isinstance(x, dict)`). -/
def Json.isObj : Json → Bool
  | .obj _ => true
  | _ => false

/-- Whether a JSON value is a bare scalar: neither a list nor a dict. -/
def Json.isScalar : Json → Bool
  | .null => true
  | .bool _ => true
  | .num _ => true
  | .str _ => true
  | .arr _ => false
  | .obj _ => false

/-- Modelled from pandas, the collaborator behind the `pd.DataFrame(list)`
calls in `df_safe`: when the first element of the list is a Mapping, the
constructor dispatches to its list-of-records path, which evaluates
`list(x.keys())` on every element and therefore raises
(`AttributeError`) as soon as some element is not a dict; a list whose
first element is not a Mapping does not take this path.  True when the
constructor raises this way. -/
def pdKeysScanRaises : List Json → Bool
  | .obj _ :: rest => rest.any (fun x => ! x.isObj)
  | _ => false

/-- Whether the real `df_safe` raises on this input: the constructor
failure above, reached through the enveloped list, through the bare
list, or through the one-element list `[obj]` (which cannot fail). -/
def df_safeRaises : Json → Bool
  | .obj kvs =>
    match envelope kvs with
    | some xs => pdKeysScanRaises xs
    | none => pdKeysScanRaises [.obj kvs]
  | .arr xs => pdKeysScanRaises xs
  | _ => false

/-- The PnL field resolver `pick(df, names)`: scan the alias list `names`
in order and return the first alias that is literally a column of the
frame (`if n in df.columns`), else `None`. -/
def pick (cols : List String) : List String → Option String
  | [] => none
  | n :: ns => if n ∈ cols then some n else pick cols ns

/-- ASCII case folding of one character (`str.lower` on the ASCII range;
every name the dashboard lowercases is ASCII). -/
def lowerChar (c : Char) : Char :=
  if 65 ≤ c.toNat ∧ c.toNat ≤ 90 then Char.ofNat (c.toNat + 32) else c

/-- Lowercasing `s.lower()` (ASCII case folding). -/
def lowerStr (s : String) : String := ⟨s.data.map lowerChar⟩

/-- The status-column scan
`next((c for c in df.columns if c.lower() in ("status", "state", "running")), None)`:
the first column, in column order, whose lowercased name is one of the
three status names. -/
def status_col : List String → Option String
  | [] => none
  | c :: cs =>
    if lowerStr c = "status" ∨ lowerStr c = "state" ∨ lowerStr c = "running" then some c
    else status_col cs

/-- Test `hasPrefixL l pat`: `pat` starts `l`. -/
def hasPrefixL : List Char → List Char → Bool
  | _, [] => true
  | [], _ :: _ => false
  | c :: cs, p :: ps => c == p && hasPrefixL cs ps

/-- Test `hasSubL pat l`: `pat` occurs as a contiguous run inside `l`. -/
def hasSubL (pat : List Char) : List Char → Bool
  | [] => hasPrefixL [] pat
  | c :: cs => hasPrefixL (c :: cs) pat || hasSubL pat cs

/-- Substring test on strings (the semantics of a plain-text pattern in
`Series.str.contains`). -/
def strContains (s pat : String) : Bool := hasSubL pat.data s.data

/-- Pattern test `.str.contains("run|true|active|online", case=False)` applied to one
cell: the lowercased string form contains one of the four substrings. -/
def isRunningValue (s : String) : Bool :=
  strContains (lowerStr s) "run" || strContains (lowerStr s) "true" ||
    strContains (lowerStr s) "active" || strContains (lowerStr s) "online"

mutual

/-- Python `repr` of a JSON value (what `astype(str)` produces for cells
that are containers, and `str()` for non-string scalars). -/
def pyRepr : Json → String
  | .null => "None"
  | .bool b => if b then "True" else "False"
  | .num n => toString n
  | .str s => "\x27" ++ s ++ "\x27"
  | .arr xs => "[" ++ pyReprList xs ++ "]"
  | .obj kvs => "\x7b" ++ pyReprKVs kvs ++ "\x7d"

/-- Comma-separated `repr` of list elements. -/
def pyReprList : List Json → String
  | [] => ""
  | [x] => pyRepr x
  | x :: y :: xs => pyRepr x ++ ", " ++ pyReprList (y :: xs)

/-- Comma-separated `repr` of dict items. -/
def pyReprKVs : List (String × Json) → String
  | [] => ""
  | [kv] => "\x27" ++ kv.1 ++ "\x27: " ++ pyRepr kv.2
  | kv :: kv2 :: kvs =>
    "\x27" ++ kv.1 ++ "\x27: " ++ pyRepr kv.2 ++ ", " ++ pyReprKVs (kv2 :: kvs)

end

/-- The string form `astype(str)` gives a cell: a string cell is taken as
is, any other present value by its Python string form, and a missing cell
(NaN) prints as `nan`. -/
def cellStr (row : List (String × Json)) (c : String) : String :=
  match lookupJ row c with
  | some (.str s) => s
  | some v => pyRepr v
  | none => "nan"

/-- The running count of the bots/instances panel: with a resolved status
column, the number of rows whose status cell matches the running pattern
(`.str.contains(...).sum()`); with none, the row count `len(df)`. -/
def bots_running (t : Table) : Nat :=
  match status_col t.cols with
  | some c => (t.rows.filter (fun r => isRunningValue (cellStr r c))).length
  | none => t.rows.length

/-- An argument to `kfmt`: `nan` stands for `None`/NaN, `num` for anything
`float()` accepts, `txt` for a value `float()` rejects. -/
inductive PyVal where
  | nan : PyVal
  | num (q : ℚ) : PyVal
  | txt (s : String) : PyVal

/-- Two-digit zero padding of the fractional part. -/
def pad2 (k : Nat) : String := if k < 10 then "0" ++ toString k else toString k

/-- Fixed two-decimal rendering `f"{q:.2f}"` (round to nearest hundredth;
the claims only exercise inputs that are exact hundredths, on which every
rounding convention agrees). -/
def fmt2 (q : ℚ) : String :=
  let n : Int := ⌊q * 100 + 1 / 2⌋
  let sign := if n < 0 then "-" else ""
  let m := n.natAbs
  sign ++ toString (m / 100) ++ "." ++ pad2 (m % 100)

/-- The metric formatter `kfmt`: `None`/NaN prints `-`; a non-numeric
value prints as itself; a number prints in millions with suffix `M` when
`abs(x) >= 1_000_000`, in thousands with suffix `K` when
`abs(x) >= 1_000`, else plain, always to two decimals. -/
def kfmt : PyVal → String
  | .nan => "-"
  | .txt s => s
  | .num x =>
    if 1000000 ≤ |x| then fmt2 (x / 1000000) ++ "M"
    else if 1000 ≤ |x| then fmt2 (x / 1000) ++ "K"
    else fmt2 x

/-- One probe loop over the raw outcome of each candidate request, in
candidate order (`Except.error` = the request raised, `Except.ok` = the
parsed JSON body).  Translates
`for path in (...): try: raw = api_get(path); df = df_safe(raw);
if not df.empty: break; except Exception as e: err = str(e)`
with the accumulated frame and error as explicit state. -/
def probeLoop : List (Except String Json) → Table → Option String → Table × Option String
  | [], df, err => (df, err)
  | .ok raw :: rest, _df, err =>
    let d := df_safe raw
    if d.isEmpty then probeLoop rest d err else (d, err)
  | .error e :: rest, df, _err => probeLoop rest df (some e)

/-- A whole probe pass: loop state starts as the empty frame and no error
(`pnl_df = pd.DataFrame(); pnl_err = None`). -/
def probeEndpoint (outs : List (Except String Json)) : Table × Option String :=
  probeLoop outs emptyTable none

/-- The last error message among the outcomes, if any request raised
(the value the loop's error variable holds after the pass). -/
def lastError : List (Except String Json) → Option String
  | [] => none
  | .ok _ :: rest => lastError rest
  | .error e :: rest => some ((lastError rest).getD e)

/-- The candidate paths of the PnL panel. -/
def pnlPaths : List String := ["/pnl", "/stats/pnl", "/performance/pnl"]

/-- The candidate paths of the orders panel. -/
def ordersPaths : List String := ["/orders/open", "/orders", "/active_orders", "/bots/orders"]

/-- The candidate paths of the trades panel. -/
def tradesPaths : List String := ["/trades", "/executions", "/fills"]

/-- The requests the trades loop issues, in order: the loop body calls
`api_get(path, params={"limit": 500})` for every path, so each candidate
carries the `limit` parameter. -/
def tradesRequests : List (String × Option Nat) :=
  tradesPaths.map (fun p => (p, some 500))

/-- The bots/instances pattern `try: x_json = api_get(p) except: ...;
x_df = df_safe(x_json)`: on failure the JSON variable stays `None`, so the
frame degrades to empty. -/
def tableOfResp : Except String Json → Table
  | .ok j => df_safe j
  | .error _ => df_safe .null

/-- The running metric of the bots/instances panel: the bots frame when it
is non-empty, else the instances frame when it is non-empty, else the
constant metric `0`. -/
def botsValue (botsT instT : Table) : Nat :=
  if !botsT.isEmpty then bots_running botsT
  else if !instT.isEmpty then bots_running instT
  else 0

/-- What one render cycle computed for each panel; `none` means the panel
was never reached.  `stopped` records that `st.stop()` ran. -/
structure Render where
  healthError : Option String
  botsRunning : Option Nat
  pnl : Option (Table × Option String)
  orders : Option (Table × Option String)
  trades : Option (Table × Option String)
  stopped : Bool

/-- One dashboard render cycle over a transport function
`fetch path limitParam`.  The health block runs first; on a transport
error it surfaces that error and calls `st.stop()`, so no further panel
runs.  Otherwise each panel computes from its own requests only. -/
def runDashboard (fetch : String → Option Nat → Except String Json) : Render :=
  match fetch "/health" none with
  | .error e =>
    { healthError := some e, botsRunning := none, pnl := none
      orders := none, trades := none, stopped := true }
  | .ok _ =>
    let botsT := tableOfResp (fetch "/bots" none)
    let instT := tableOfResp (fetch "/instances" none)
    { healthError := none
      botsRunning := some (botsValue botsT instT)
      pnl := some (probeEndpoint (pnlPaths.map (fun p => fetch p none)))
      orders := some (probeEndpoint (ordersPaths.map (fun p => fetch p none)))
      trades := some (probeEndpoint (tradesRequests.map (fun pq => fetch pq.1 pq.2)))
      stopped := false }

/-! Section: Helper lemmas -/

theorem pick_congr (cols cols2 names : List String)
    (h : ∀ n, n ∈ cols ↔ n ∈ cols2) : pick cols names = pick cols2 names := by
  induction names with
  | nil => rfl
  | cons n ns ih =>
    by_cases hn : n ∈ cols
    · simp [pick, hn, (h n).mp hn]
    · have hn2 : n ∉ cols2 := fun hc => hn ((h n).mpr hc)
      simp [pick, hn, hn2, ih]

theorem pick_eq_find (cols names : List String) :
    pick cols names = names.find? (fun n => decide (n ∈ cols)) := by
  induction names with
  | nil => rfl
  | cons n ns ih =>
    by_cases hn : n ∈ cols
    · simp [pick, hn, List.find?_cons_of_pos]
    · rw [List.find?_cons_of_neg _ (by simpa using hn)]
      simpa [pick, hn] using ih

theorem pick_eq_none (cols names : List String) :
    pick cols names = none ↔ ∀ n ∈ names, n ∉ cols := by
  induction names with
  | nil => simp [pick]
  | cons n ns ih =>
    by_cases hn : n ∈ cols <;> simp [pick, hn, ih]

theorem statusCol_eq_find (cols : List String) :
    status_col cols =
      cols.find? (fun c =>
        decide (lowerStr c = "status" ∨ lowerStr c = "state" ∨ lowerStr c = "running")) := by
  induction cols with
  | nil => rfl
  | cons c cs ih =>
    by_cases hc : lowerStr c = "status" ∨ lowerStr c = "state" ∨ lowerStr c = "running"
    · simp [status_col, hc, List.find?_cons_of_pos]
    · rw [List.find?_cons_of_neg _ (by simpa using hc)]
      simpa [status_col, hc] using ih

theorem statusCol_eq_none (cols : List String) :
    status_col cols = none ↔
      ∀ c ∈ cols, lowerStr c ≠ "status" ∧ lowerStr c ≠ "state" ∧ lowerStr c ≠ "running" := by
  induction cols with
  | nil => simp [status_col]
  | cons c cs ih =>
    by_cases hc : lowerStr c = "status" ∨ lowerStr c = "state" ∨ lowerStr c = "running"
    · simp only [status_col, if_pos hc]
      constructor
      · intro h; cases h
      · intro h
        rcases hc with h1 | h1 | h1 <;>
          exact absurd h1 (by have := h c (by simp); tauto)
    · simp only [status_col, if_neg hc]
      rw [ih]
      constructor
      · intro h
        intro x hx
        rcases List.mem_cons.mp hx with rfl | hx2
        · exact ⟨fun h1 => hc (Or.inl h1), fun h1 => hc (Or.inr (Or.inl h1)),
            fun h1 => hc (Or.inr (Or.inr h1))⟩
        · exact h x hx2
      · intro h x hx
        exact h x (List.mem_cons_of_mem _ hx)

/-! Section: Claim C1 -/

/-- C1 counterexample: `pick` is case-sensitive, not case-insensitive.
The table with the single column `PNL` and the alias list `["pnl"]` form a
case-insensitive match (`"PNL".lower() == "pnl".lower()`), yet `pick`
returns `None`, contradicting the claim that `pick` compares aliases
against column names case-insensitively. -/
theorem pick_case_cex :
    pick ["PNL"] ["pnl"] = none ∧ lowerStr "PNL" = lowerStr "pnl" := by
  constructor
  · decide
  · decide

/-- C1 amended: `pick` compares each alias against the table's column
names by exact, case-sensitive string equality and returns the first
alias in priority order that occurs among the columns; it returns none
exactly when no alias occurs among the columns, and the result depends on
the column list only through membership, so the earliest matching alias
wins regardless of column order. -/
theorem pick_exact_priority (cols cols2 names : List String)
    (h : ∀ n, n ∈ cols ↔ n ∈ cols2) :
    pick cols names = pick cols2 names ∧
    pick cols names = names.find? (fun n => decide (n ∈ cols)) ∧
    (pick cols names = none ↔ ∀ n ∈ names, n ∉ cols) :=
  ⟨pick_congr cols cols2 names h, pick_eq_find cols names, pick_eq_none cols names⟩

/-- C1 witness: the amended statement at the column lists `["b", "a"]`
and `["a", "b"]` and the alias list `["x", "a"]`. -/
theorem pick_exact_priority_witness :
    pick ["b", "a"] ["x", "a"] = pick ["a", "b"] ["x", "a"] ∧
    pick ["b", "a"] ["x", "a"] =
      List.find? (fun n => decide (n ∈ (["b", "a"] : List String))) ["x", "a"] ∧
    (pick ["b", "a"] ["x", "a"] = none ↔
      ∀ n ∈ (["x", "a"] : List String), n ∉ (["b", "a"] : List String)) :=
  pick_exact_priority ["b", "a"] ["a", "b"] ["x", "a"]
    (by intro n; simp only [List.mem_cons, List.not_mem_nil, or_false]; tauto)

/-! Section: Claim C2 -/

/-- C2 counterexample: the status-column scan iterates over the table's
columns, not over the alias priority list, so on the column list
`["running", "status"]` it returns `"running"`, while the claim demands
the fixed priority order status, state, running, hence `"status"`. -/
theorem statusCol_priority_cex :
    status_col ["running", "status"] = some "running" ∧
    status_col ["running", "status"] ≠ some "status" := by
  constructor
  · decide
  · decide

/-- C2 amended: the status-column resolver returns the first column in
the table's column order (not in alias priority order) whose lowercased
name is one of status, state, running, and none exactly when no column
name lowercases to one of the three; a table with columns
`["running", "status"]` therefore resolves to `"running"`. -/
theorem statusCol_column_order (cols : List String) :
    status_col cols =
      cols.find? (fun c =>
        decide (lowerStr c = "status" ∨ lowerStr c = "state" ∨ lowerStr c = "running")) ∧
    (status_col cols = none ↔
      ∀ c ∈ cols, lowerStr c ≠ "status" ∧ lowerStr c ≠ "state" ∧ lowerStr c ≠ "running") ∧
    status_col ["running", "status"] = some "running" :=
  ⟨statusCol_eq_find cols, statusCol_eq_none cols, by decide⟩

/-- C2 witness: the amended statement at the column list
`["pair", "STATE"]`. -/
theorem statusCol_column_order_witness :
    status_col ["pair", "STATE"] =
      List.find? (fun c =>
        decide (lowerStr c = "status" ∨ lowerStr c = "state" ∨ lowerStr c = "running"))
        ["pair", "STATE"] ∧
    (status_col ["pair", "STATE"] = none ↔
      ∀ c ∈ (["pair", "STATE"] : List String),
        lowerStr c ≠ "status" ∧ lowerStr c ≠ "state" ∧ lowerStr c ≠ "running") ∧
    status_col ["running", "status"] = some "running" :=
  statusCol_column_order ["pair", "STATE"]

/-! Section: Claim C3 -/

/-- A candidate outcome the probe loop does not accept: the request
raised, or its body normalized to an empty frame. -/
def notHit : Except String Json → Bool
  | .ok j => (df_safe j).isEmpty
  | .error _ => true

/-- The error variable after scanning `outs` starting from `err`. -/
def lastErrWith (outs : List (Except String Json)) (err : Option String) : Option String :=
  match lastError outs with
  | some e => some e
  | none => err

theorem lastErrWith_none (outs : List (Except String Json)) :
    lastErrWith outs none = lastError outs := by
  cases h : lastError outs <;> simp [lastErrWith, h]

theorem lastErrWith_ok (j : Json) (rest : List (Except String Json)) (err : Option String) :
    lastErrWith (.ok j :: rest) err = lastErrWith rest err := by
  simp [lastErrWith, lastError]

theorem lastErrWith_error (e : String) (rest : List (Except String Json)) (err : Option String) :
    lastErrWith (.error e :: rest) err = lastErrWith rest (some e) := by
  cases h : lastError rest <;> simp [lastErrWith, lastError, h]

theorem lastError_all_ok (outs : List (Except String Json))
    (h : ∀ o ∈ outs, ∃ j, o = .ok j) : lastError outs = none := by
  induction outs with
  | nil => rfl
  | cons o rest ih =>
    obtain ⟨j, rfl⟩ := h o (by simp)
    simpa [lastError] using ih (fun o ho => h o (by simp [ho]))

theorem probeLoop_exhaust (outs : List (Except String Json)) :
    ∀ (df : Table) (err : Option String),
      (∀ o ∈ outs, notHit o = true) → df.isEmpty = true →
      (probeLoop outs df err).1.isEmpty = true ∧
      (probeLoop outs df err).2 = lastErrWith outs err := by
  induction outs with
  | nil =>
    intro df err _ hdf
    simpa [probeLoop, lastErrWith, lastError] using hdf
  | cons o rest ih =>
    intro df err hall hdf
    match o with
    | .ok j =>
      have hj : (df_safe j).isEmpty = true := by
        simpa [notHit] using hall (.ok j) (by simp)
      rw [lastErrWith_ok]
      simpa [probeLoop, hj] using ih (df_safe j) err (fun o ho => hall o (by simp [ho])) hj
    | .error e =>
      rw [lastErrWith_error]
      simpa [probeLoop] using ih df (some e) (fun o ho => hall o (by simp [ho])) hdf

theorem probeLoop_break (pre : List (Except String Json)) :
    ∀ (j : Json) (post : List (Except String Json)) (df : Table) (err : Option String),
      (∀ o ∈ pre, notHit o = true) → (df_safe j).isEmpty = false →
      probeLoop (pre ++ .ok j :: post) df err = (df_safe j, lastErrWith pre err) := by
  induction pre with
  | nil =>
    intro j post df err _ hj
    simp [probeLoop, hj, lastErrWith, lastError]
  | cons o rest ih =>
    intro j post df err hall hj
    match o with
    | .ok j0 =>
      have hj0 : (df_safe j0).isEmpty = true := by
        simpa [notHit] using hall (.ok j0) (by simp)
      rw [lastErrWith_ok]
      simpa [probeLoop, hj0] using
        ih j post (df_safe j0) err (fun o ho => hall o (by simp [ho])) hj
    | .error e =>
      rw [lastErrWith_error]
      simpa [probeLoop] using ih j post df (some e) (fun o ho => hall o (by simp [ho])) hj

/-- C3: the probe loop tries candidates in order and accepts the first
whose normalized frame is non-empty, ignoring every later candidate; a
failed request only updates the remembered error; exhausting all
candidates leaves an empty frame together with the last error seen (and
no error at all when every candidate legitimately returned empty data);
and on candidates behaving like `["/a", "/b"]` with `/a` empty and `/b`
three rows, the result is the `/b` frame with no error. -/
theorem probe_spec (pre post outs : List (Except String Json)) (j : Json)
    (hpre : ∀ o ∈ pre, notHit o = true)
    (hj : (df_safe j).isEmpty = false)
    (hall : ∀ o ∈ outs, notHit o = true) :
    probeEndpoint (pre ++ .ok j :: post) = (df_safe j, lastError pre) ∧
    (probeEndpoint outs).1.isEmpty = true ∧
    (probeEndpoint outs).2 = lastError outs ∧
    ((∀ o ∈ outs, ∃ jo, o = .ok jo) → (probeEndpoint outs).2 = none) ∧
    probeEndpoint [.ok (.arr []), .ok (.arr [.num 1, .num 2, .num 3])] =
      (df_safe (.arr [.num 1, .num 2, .num 3]), none) := by
  have hex := probeLoop_exhaust outs emptyTable none hall rfl
  refine ⟨?_, hex.1, ?_, ?_, ?_⟩
  · rw [probeEndpoint, probeLoop_break pre j post emptyTable none hpre hj, lastErrWith_none]
  · rw [probeEndpoint, hex.2, lastErrWith_none]
  · intro hok
    rw [probeEndpoint, hex.2, lastErrWith_none, lastError_all_ok outs hok]
  · rfl

/-- C3 witness: the probe statement at a concrete failing first
candidate, an empty second candidate, a three-row third candidate and a
trailing candidate that is never reached. -/
theorem probe_spec_witness :
    probeEndpoint
        ([.error "boom", .ok (.arr [])] ++
          .ok (.arr [.num 1, .num 2, .num 3]) :: [.error "later"]) =
      (df_safe (.arr [.num 1, .num 2, .num 3]),
        lastError [.error "boom", .ok (.arr [])]) ∧
    (probeEndpoint [.ok (.arr []), .ok .null]).1.isEmpty = true ∧
    (probeEndpoint [.ok (.arr []), .ok .null]).2 =
      lastError [.ok (.arr []), .ok .null] ∧
    ((∀ o ∈ ([.ok (.arr []), .ok .null] : List (Except String Json)),
        ∃ jo, o = .ok jo) →
      (probeEndpoint [.ok (.arr []), .ok .null]).2 = none) ∧
    probeEndpoint [.ok (.arr []), .ok (.arr [.num 1, .num 2, .num 3])] =
      (df_safe (.arr [.num 1, .num 2, .num 3]), none) :=
  probe_spec [.error "boom", .ok (.arr [])] [.error "later"]
    [.ok (.arr []), .ok .null] (.arr [.num 1, .num 2, .num 3])
    (by decide) (by decide) (by decide)

/-! Section: Claim C4 -/

theorem hasPrefixL_iff (pat : List Char) :
    ∀ l, hasPrefixL l pat = true ↔ ∃ r, l = pat ++ r := by
  induction pat with
  | nil =>
    intro l
    simp [hasPrefixL]
  | cons p ps ih =>
    intro l
    cases l with
    | nil => simp [hasPrefixL]
    | cons c cs =>
      simp only [hasPrefixL, Bool.and_eq_true, beq_iff_eq, List.cons_append,
        List.cons.injEq, ih cs]
      constructor
      · rintro ⟨rfl, r, rfl⟩
        exact ⟨r, rfl, rfl⟩
      · rintro ⟨r, rfl, rfl⟩
        exact ⟨rfl, r, rfl⟩

theorem hasSubL_iff (pat : List Char) :
    ∀ l, hasSubL pat l = true ↔ ∃ a b, l = a ++ pat ++ b := by
  intro l
  induction l with
  | nil =>
    simp only [hasSubL, hasPrefixL_iff]
    constructor
    · rintro ⟨r, hr⟩
      exact ⟨[], r, hr⟩
    · rintro ⟨a, b, h⟩
      exact ⟨b, by cases a <;> simp_all⟩
  | cons c cs ih =>
    simp only [hasSubL, Bool.or_eq_true, hasPrefixL_iff, ih]
    constructor
    · rintro (⟨r, hr⟩ | ⟨a, b, rfl⟩)
      · exact ⟨[], r, hr⟩
      · exact ⟨c :: a, b, rfl⟩
    · rintro ⟨a, b, h⟩
      cases a with
      | nil => exact Or.inl ⟨b, by simpa using h⟩
      | cons x xs =>
        simp only [List.cons_append, List.cons.injEq] at h
        exact Or.inr ⟨xs, b, h.2⟩

/-- Predicate form of the substring test: `pat` occurs as a contiguous substring of `s` (the property behind a
plain-text `Series.str.contains` pattern). -/
def containsSub (s pat : String) : Prop := ∃ a b, s.data = a ++ pat.data ++ b

theorem strContains_iff (s pat : String) :
    strContains s pat = true ↔ containsSub s pat :=
  hasSubL_iff pat.data s.data

/-- C4: `isRunningValue` holds exactly when the lowercased cell contains
one of the substrings run, true, active, online; with a resolved status
column, the running count is the number of rows whose status cell
satisfies it; with no resolvable status column, the running count is the
row count; on status values RUNNING, stopped, ACTIVE_now, 0 the count is
2, and on a five-row table with no status column it is 5. -/
theorem bots_running_spec :
    (∀ s : String, isRunningValue s = true ↔
      (containsSub (lowerStr s) "run" ∨ containsSub (lowerStr s) "true" ∨
        containsSub (lowerStr s) "active" ∨ containsSub (lowerStr s) "online")) ∧
    (∀ t : Table, status_col t.cols = none → bots_running t = t.rows.length) ∧
    (∀ (t : Table) (c : String), status_col t.cols = some c →
      bots_running t = (t.rows.filter (fun r => isRunningValue (cellStr r c))).length) ∧
    bots_running ⟨["status"],
      [[("status", .str "RUNNING")], [("status", .str "stopped")],
        [("status", .str "ACTIVE_now")], [("status", .str "0")]]⟩ = 2 ∧
    bots_running ⟨["name"],
      [[("name", .str "a")], [("name", .str "b")], [("name", .str "c")],
        [("name", .str "d")], [("name", .str "e")]]⟩ = 5 := by
  refine ⟨?_, ?_, ?_, by decide, by decide⟩
  · intro s
    simp [isRunningValue, strContains_iff, or_assoc]
  · intro t h
    simp [bots_running, h]
  · intro t c h
    simp [bots_running, h]

/-- C4 witness: the counting rule applied to the four-status-value table
and to a five-row table with no status column. -/
theorem bots_running_spec_witness :
    bots_running ⟨["name"],
        [[("name", .str "a")], [("name", .str "b")], [("name", .str "c")],
          [("name", .str "d")], [("name", .str "e")]]⟩ =
      ([[("name", Json.str "a")], [("name", Json.str "b")], [("name", Json.str "c")],
        [("name", Json.str "d")], [("name", Json.str "e")]] :
          List (List (String × Json))).length ∧
    bots_running ⟨["status"],
        [[("status", .str "RUNNING")], [("status", .str "stopped")],
          [("status", .str "ACTIVE_now")], [("status", .str "0")]]⟩ =
      (([[("status", Json.str "RUNNING")], [("status", Json.str "stopped")],
          [("status", Json.str "ACTIVE_now")], [("status", Json.str "0")]] :
            List (List (String × Json))).filter
        (fun r => isRunningValue (cellStr r "status"))).length :=
  ⟨bots_running_spec.2.1 _ (by decide), bots_running_spec.2.2.1 _ "status" (by decide)⟩

/-! Section: Claim C5 -/

theorem addCols_nodup (kvs : List (String × Json)) :
    ∀ acc : List String,
      (∀ k ∈ kvs.map Prod.fst, k ∉ acc) → (kvs.map Prod.fst).Nodup →
      addCols acc kvs = acc ++ kvs.map Prod.fst := by
  induction kvs with
  | nil => intro acc _ _; simp [addCols]
  | cons kv rest ih =>
    intro acc hnotin hnodup
    have hk : kv.1 ∉ acc := hnotin kv.1 (by simp)
    have hrest : ∀ k ∈ rest.map Prod.fst, k ∉ acc ++ [kv.1] := by
      intro k hkr
      have h1 : k ∉ acc := hnotin k (by simp [hkr])
      have h2 : k ≠ kv.1 := by
        rintro rfl
        exact (List.nodup_cons.mp (by simpa using hnodup)).1 hkr
      simp [h1, h2]
    have hnd : (rest.map Prod.fst).Nodup :=
      (List.nodup_cons.mp (by simpa using hnodup)).2
    have hstep := ih (acc ++ [kv.1]) hrest hnd
    simp only [addCols, List.foldl_cons, if_neg hk] at *
    rw [hstep]
    simp

/-- C5: on a JSON object the normalizer searches the keys data, result,
items in that fixed order for a list value; for the first such key the
result is exactly the normalization of that inner list, and when no such
key holds a list the object becomes a one-row table whose row is the
object itself and whose columns are the object's keys. -/
theorem df_safe_envelope (kvs : List (String × Json)) (xs : List Json) :
    (getArr (lookupJ kvs "data") = some xs →
      df_safe (.obj kvs) = df_safe (.arr xs)) ∧
    (getArr (lookupJ kvs "data") = none →
      getArr (lookupJ kvs "result") = some xs →
      df_safe (.obj kvs) = df_safe (.arr xs)) ∧
    (getArr (lookupJ kvs "data") = none →
      getArr (lookupJ kvs "result") = none →
      getArr (lookupJ kvs "items") = some xs →
      df_safe (.obj kvs) = df_safe (.arr xs)) ∧
    (getArr (lookupJ kvs "data") = none →
      getArr (lookupJ kvs "result") = none →
      getArr (lookupJ kvs "items") = none →
      (df_safe (.obj kvs)).rows = [kvs] ∧
      ((kvs.map Prod.fst).Nodup → (df_safe (.obj kvs)).cols = kvs.map Prod.fst)) := by
  refine ⟨?_, ?_, ?_, ?_⟩
  · intro h
    simp [df_safe, envelope, h]
  · intro h1 h2
    simp [df_safe, envelope, h1, h2]
  · intro h1 h2 h3
    simp [df_safe, envelope, h1, h2, h3]
  · intro h1 h2 h3
    constructor
    · simp [df_safe, envelope, h1, h2, h3, dfOfList, rowOf]
    · intro hnodup
      have hcols := addCols_nodup kvs [] (by simp) hnodup
      simp [df_safe, envelope, h1, h2, h3, dfOfList, rowOf, addCols] at hcols ⊢
      simpa using hcols

/-- C5 witness: the four branches at concrete objects — an enveloped
`data` list, a `result` list behind a non-list `data` miss, an `items`
list, and a flat object with two keys. -/
theorem df_safe_envelope_witness :
    df_safe (.obj [("meta", .num 1), ("data", .arr [.num 5])]) =
      df_safe (.arr [.num 5]) ∧
    df_safe (.obj [("data", .num 0), ("result", .arr [.num 2])]) =
      df_safe (.arr [.num 2]) ∧
    df_safe (.obj [("items", .arr [.bool true])]) =
      df_safe (.arr [.bool true]) ∧
    ((df_safe (.obj [("a", .num 1), ("b", .num 2)])).rows =
        [[("a", Json.num 1), ("b", Json.num 2)]] ∧
      (((([("a", Json.num 1), ("b", Json.num 2)] :
            List (String × Json))).map Prod.fst).Nodup →
        (df_safe (.obj [("a", .num 1), ("b", .num 2)])).cols = ["a", "b"])) :=
  ⟨(df_safe_envelope [("meta", .num 1), ("data", .arr [.num 5])] [.num 5]).1 rfl,
    (df_safe_envelope [("data", .num 0), ("result", .arr [.num 2])] [.num 2]).2.1 rfl rfl,
    (df_safe_envelope [("items", .arr [.bool true])] [.bool true]).2.2.1 rfl rfl rfl,
    (df_safe_envelope [("a", .num 1), ("b", .num 2)] []).2.2.2 rfl rfl rfl⟩

/-! Section: Claim C6 -/

theorem pdKeysScanRaises_no_obj (xs : List Json)
    (h : ∀ x ∈ xs, Json.isObj x = false) : pdKeysScanRaises xs = false := by
  cases xs with
  | nil => rfl
  | cons x rest => cases x <;> simp_all [pdKeysScanRaises, Json.isObj]

/-- C7: the metric formatter prints the placeholder for missing input,
scales by a million with suffix M when the absolute value reaches a
million, by a thousand with suffix K when it reaches a thousand, and
plainly otherwise, always to two decimals with the sign preserved; the
five concrete examples of the claim evaluate as stated. -/
theorem kfmt_spec :
    kfmt .nan = "-" ∧
    kfmt (.num 1500000) = "1.50M" ∧
    kfmt (.num 2500) = "2.50K" ∧
    kfmt (.num 42) = "42.00" ∧
    kfmt (.num (-2500)) = "-2.50K" ∧
    (∀ v : ℚ, 1000000 ≤ |v| → kfmt (.num v) = fmt2 (v / 1000000) ++ "M") ∧
    (∀ v : ℚ, 1000 ≤ |v| → |v| < 1000000 → kfmt (.num v) = fmt2 (v / 1000) ++ "K") ∧
    (∀ v : ℚ, |v| < 1000 → kfmt (.num v) = fmt2 v) := by
  refine ⟨rfl, ?_, ?_, ?_, ?_, ?_, ?_, ?_⟩
  · simp only [kfmt, fmt2, pad2]
    norm_num
    decide
  · simp only [kfmt, fmt2, pad2]
    norm_num
    decide
  · simp only [kfmt, fmt2, pad2]
    norm_num
    decide
  · simp only [kfmt, fmt2, pad2]
    norm_num
    decide
  · intro v hv
    simp only [kfmt, if_pos hv]
  · intro v h1 h2
    simp only [kfmt, if_neg (not_le.mpr h2), if_pos h1]
  · intro v h
    have h1 : ¬ (1000000 : ℚ) ≤ |v| := not_le.mpr (h.trans (by norm_num))
    have h2 : ¬ (1000 : ℚ) ≤ |v| := not_le.mpr h
    simp only [kfmt, if_neg h1, if_neg h2]

/-- C7 witness: the three threshold branches at 2000000, 5000 and 7. -/
theorem kfmt_spec_witness :
    kfmt (.num 2000000) = fmt2 (2000000 / 1000000) ++ "M" ∧
    kfmt (.num 5000) = fmt2 (5000 / 1000) ++ "K" ∧
    kfmt (.num 7) = fmt2 7 :=
  ⟨kfmt_spec.2.2.2.2.2.1 2000000 (by norm_num),
    kfmt_spec.2.2.2.2.2.2.1 5000 (by norm_num) (by norm_num),
    kfmt_spec.2.2.2.2.2.2.2 7 (by norm_num)⟩

/-! Section: Claim C8 -/

/-- C8: a transport error on the health check surfaces that single error
and stops the cycle — no other panel is computed; on a healthy check
every panel renders, and each panel's output is a function of its own
requests alone, so one panel's failures cannot prevent a sibling from
rendering. -/
theorem health_fatal :
    (∀ (fetch : String → Option Nat → Except String Json) (e : String),
      fetch "/health" none = .error e →
      runDashboard fetch = ⟨some e, none, none, none, none, true⟩) ∧
    (∀ (fetch : String → Option Nat → Except String Json) (j : Json),
      fetch "/health" none = .ok j →
      runDashboard fetch =
        ⟨none,
          some (botsValue (tableOfResp (fetch "/bots" none))
            (tableOfResp (fetch "/instances" none))),
          some (probeEndpoint (pnlPaths.map (fun p => fetch p none))),
          some (probeEndpoint (ordersPaths.map (fun p => fetch p none))),
          some (probeEndpoint (tradesRequests.map (fun pq => fetch pq.1 pq.2))),
          false⟩) := by
  constructor
  · intro fetch e h
    simp [runDashboard, h]
  · intro fetch j h
    simp [runDashboard, h]

/-- C8 witness: a transport that always fails halts the cycle with the
single health error; a transport that always answers `null` renders every
panel. -/
theorem health_fatal_witness :
    runDashboard (fun _ _ => .error "down") =
      ⟨some "down", none, none, none, none, true⟩ ∧
    runDashboard (fun _ _ => .ok .null) =
      ⟨none, some 0, some (emptyTable, none), some (emptyTable, none),
        some (emptyTable, none), false⟩ := by
  constructor
  · exact health_fatal.1 (fun _ _ => .error "down") "down" rfl
  · rw [health_fatal.2 (fun _ _ => .ok .null) .null rfl]
    rfl

/-! Section: Claim C9 -/

/-- C9 counterexample: the trades loop body attaches
`params={"limit": 500}` to every candidate, so the issued request list is
not the claimed one where only `/trades` carries the parameter —
`/executions` is requested with `limit=500` as well. -/
theorem tradesRequests_cex :
    tradesRequests ≠
      [("/trades", some 500), ("/executions", none), ("/fills", none)] ∧
    tradesRequests.get ⟨1, by decide⟩ = ("/executions", some 500) := by
  constructor
  · decide
  · decide

/-- C9 amended: the trades prober tries `/trades`, `/executions`,
`/fills` in that order, and the query parameter `limit=500` is attached
to all three requests, not only to `/trades`. -/
theorem tradesRequests_amended :
    tradesRequests =
      [("/trades", some 500), ("/executions", some 500), ("/fills", some 500)] := by
  decide

/-! Section: Claim C10 -/

theorem rowOf_scalar (x : Json) (h : Json.isScalar x = true) :
    rowOf x = [("0", x)] := by
  cases x <;> simp_all [Json.isScalar, rowOf]

theorem foldl_addCols_scalar (xs : List Json) :
    ∀ acc : List String, (∀ x ∈ xs, Json.isScalar x = true) → "0" ∈ acc →
      (xs.map rowOf).foldl addCols acc = acc := by
  induction xs with
  | nil => intro acc _ _; rfl
  | cons x rest ih =>
    intro acc h h0
    have hx := rowOf_scalar x (h x (by simp))
    simp only [List.map_cons, List.foldl_cons, hx]
    have hstep : addCols acc [("0", x)] = acc := by simp [addCols, h0]
    rw [hstep]
    exact ih acc (fun y hy => h y (by simp [hy])) h0

/-- C10 counterexample: `[{}]` is a non-empty JSON array, its normalized
frame has one row per element, yet that frame has no columns, pandas
counts it as empty, and the prober therefore passes over it instead of
short-circuiting. -/
theorem dfArr_cex :
    (df_safe (.arr [.obj []])).rows.length = 1 ∧
    (df_safe (.arr [.obj []])).isEmpty = true ∧
    probeEndpoint [.ok (.arr [.obj []]), .ok (.arr [.num 7])] =
      (df_safe (.arr [.num 7]), none) :=
  ⟨rfl, rfl, rfl⟩

/-- C10 amended: for every non-empty JSON array all of whose elements
are bare scalars — numbers, strings, booleans or nulls, the very shapes
the claim instances — the pandas constructor cannot raise, the
normalizer returns a frame with one row per array element in the single
positional column 0, that frame is non-empty, and the prober accepts it
immediately without trying any later candidate.  The original universal
statement fails at `[{}]` (see the counterexample), and at dict-first
heterogeneous arrays pandas raises instead of producing a table. -/
theorem dfArr_scalar_rows (xs : List Json) (hne : xs ≠ [])
    (hsc : ∀ x ∈ xs, Json.isScalar x = true) :
    df_safeRaises (.arr xs) = false ∧
    (df_safe (.arr xs)).rows.length = xs.length ∧
    (df_safe (.arr xs)).cols = ["0"] ∧
    (df_safe (.arr xs)).isEmpty = false ∧
    (∀ rest, probeEndpoint (.ok (.arr xs) :: rest) = (df_safe (.arr xs), none)) := by
  have hnoobj : ∀ x ∈ xs, Json.isObj x = false := by
    intro x hx
    have := hsc x hx
    cases x <;> simp_all [Json.isScalar, Json.isObj]
  have hraise : df_safeRaises (.arr xs) = false := pdKeysScanRaises_no_obj xs hnoobj
  have hcols : (df_safe (.arr xs)).cols = ["0"] := by
    cases xs with
    | nil => exact absurd rfl hne
    | cons x rest =>
      have hx := rowOf_scalar x (hsc x (by simp))
      show ((x :: rest).map rowOf).foldl addCols [] = ["0"]
      simp only [List.map_cons, List.foldl_cons, hx]
      have h1 : addCols [] [("0", x)] = ["0"] := by simp [addCols]
      rw [h1]
      exact foldl_addCols_scalar rest ["0"] (fun y hy => hsc y (by simp [hy])) (by simp)
  have hrows : (df_safe (.arr xs)).rows = xs.map rowOf := rfl
  have hempty : (df_safe (.arr xs)).isEmpty = false := by
    simp only [Table.isEmpty, hrows, hcols]
    cases xs with
    | nil => exact absurd rfl hne
    | cons x rest => simp
  refine ⟨hraise, by simp [hrows], hcols, hempty, fun rest => ?_⟩
  simp [probeEndpoint, probeLoop, hempty]

/-- C10 witness: the amended statement at the two-element array of a
string and a number, probed ahead of a candidate that is never tried. -/
theorem dfArr_scalar_rows_witness :
    df_safeRaises (.arr [.str "x", .num 7]) = false ∧
    (df_safe (.arr [.str "x", .num 7])).rows.length = 2 ∧
    (df_safe (.arr [.str "x", .num 7])).cols = ["0"] ∧
    (df_safe (.arr [.str "x", .num 7])).isEmpty = false ∧
    probeEndpoint [.ok (.arr [.str "x", .num 7]), .error "z"] =
      (df_safe (.arr [.str "x", .num 7]), none) := by
  have h := dfArr_scalar_rows [.str "x", .num 7] (by simp) (by decide)
  exact ⟨h.1, h.2.1, h.2.2.1, h.2.2.2.1, h.2.2.2.2 [.error "z"]⟩

end HB
